import Mathlib

/-!
Verification development for the sales-analysis GraphQL service
(`src/graphql/resolvers.js` together with the Mongoose models in
`src/models/`).  The data store is modelled as an in-memory dataset of the
three collections; MongoDB aggregation stages are translated stage by stage
into list operations; JavaScript `try`/`catch` control flow is modelled with
`Except` over an explicit error type.  Monetary amounts are idealized as
rationals, timestamps as integers (`Option Int` for a value that may be an
invalid date / `NaN` timestamp).
-/

namespace SalesAnalysis

/-! ### Data model (src/models/Customer.js, Product.js, Order.js) -/

/-- The `status` enum of the order schema: `['pending', 'completed', 'canceled']`. -/
inductive OrderStatus where
  | pending
  | completed
  | canceled
deriving DecidableEq, Repr

/-- Customer document: string `_id`, name, email, optional age/location/gender. -/
structure Customer where
  id : String
  name : String
  email : String
  age : Option Int := none
  location : Option String := none
  gender : Option String := none
deriving DecidableEq, Repr

/-- Product document: string `_id`, name, category, price, stock. -/
structure Product where
  id : String
  name : String
  category : String
  price : ℚ
  stock : Int
deriving DecidableEq, Repr

/-- Embedded order line item: `productId`, `quantity`, `priceAtPurchase`. -/
structure OrderItem where
  productId : String
  quantity : Int
  priceAtPurchase : ℚ
deriving DecidableEq, Repr

/-- Order document: string `_id`, `customerId`, embedded `products` items,
`totalAmount`, `orderDate` (timestamp), `status`. -/
structure Order where
  id : String
  customerId : String
  products : List OrderItem
  totalAmount : ℚ
  orderDate : Int
  status : OrderStatus
deriving DecidableEq, Repr

/-- A snapshot of the three MongoDB collections. -/
structure Dataset where
  customers : List Customer
  products : List Product
  orders : List Order
deriving DecidableEq, Repr

/-! ### Error model -/

/-- The `extensions.code` visible to the GraphQL caller.  `GENERIC` stands
for a `GraphQLError` constructed without any `extensions.code` (as in the
`catch` blocks of the three point lookups). -/
inductive ErrCode where
  | BAD_USER_INPUT
  | NOT_FOUND
  | INTERNAL_SERVER_ERROR
  | GENERIC
deriving DecidableEq, Repr

/-- A thrown JavaScript error as a `catch` block sees it: a `GraphQLError`
carrying its code, a Mongoose `CastError`, or some other store failure. -/
inductive JsError where
  | graphql (code : ErrCode)
  | castError
  | storeError
deriving DecidableEq, Repr

/-! ### Rounding

`parseFloat(x.toFixed(2))` in the resolvers, and the `$round: [x, 2]`
aggregation stage, idealized over rationals.  `toFixed` rounds to the
nearest multiple of 1/100 with ties away from zero; `$round` rounds ties to
even. -/

/-- Round a rational to the nearest integer, ties away from zero
(JS `toFixed` idealization). -/
def jsRoundAway (q : ℚ) : ℤ :=
  if q < 0 then -(Int.floor (-q + 1/2)) else Int.floor (q + 1/2)

/-- JS `parseFloat(x.toFixed(2))`: round to 2 decimal places, ties away from
zero. -/
def toFixed2 (q : ℚ) : ℚ := (jsRoundAway (q * 100) : ℚ) / 100

/-- Round a rational to the nearest integer, ties to even
(MongoDB `$round` idealization). -/
def roundHalfEven (q : ℚ) : ℤ :=
  let f := Int.floor q
  let frac := q - (f : ℚ)
  if frac < 1/2 then f
  else if 1/2 < frac then f + 1
  else if f % 2 = 0 then f else f + 1

/-- MongoDB `$round: [x, 2]`: round to 2 decimal places, ties to even. -/
def mongoRound2 (q : ℚ) : ℚ := (roundHalfEven (q * 100) : ℚ) / 100

/-! ### Query 1: getCustomerSpending (resolvers.js lines 43-110) -/

/-- Result shape of `getCustomerSpending`. -/
structure CustomerSpending where
  customerId : String
  totalSpent : ℚ
  averageOrderValue : ℚ
  lastOrderDate : Option Int
deriving DecidableEq, Repr

/-- The `$match`/`$sort`/`$group`/`$project` spending pipeline (lines 50-75)
over the orders collection.  `$group` by `customerId` produces one row per
distinct matched customer id — here zero or one; `lastOrderDate` is the
`$first` `orderDate` after the descending `$sort`, i.e. the maximum;
`averageOrderValue` is `$cond`-guarded against a zero `orderCount`. -/
def spendingAggregate (customerId : String) (orders : List Order) :
    Option CustomerSpending :=
  let matched := orders.filter (fun o => o.customerId == customerId)
  if matched.isEmpty then none
  else
    let totalSpent := (matched.map Order.totalAmount).sum
    let orderCount : ℕ := matched.length
    some { customerId := customerId
           totalSpent := totalSpent
           averageOrderValue :=
             if orderCount = 0 then 0 else totalSpent / (orderCount : ℚ)
           lastOrderDate := (matched.map Order.orderDate).max? }

/-- Body of the `try` block of `getCustomerSpending` (lines 49-97): run the
aggregation; on a non-empty result round both monetary fields with
`toFixed(2)`; on an empty result consult the customer collection, throwing a
NOT_FOUND `GraphQLError` when the customer does not exist, and otherwise
returning the zero-valued summary. -/
def getCustomerSpendingTry (customerId : String) (ds : Dataset) :
    Except JsError CustomerSpending :=
  match spendingAggregate customerId ds.orders with
  | some r =>
      .ok { r with totalSpent := toFixed2 r.totalSpent
                   averageOrderValue := toFixed2 r.averageOrderValue }
  | none =>
      match ds.customers.find? (fun c => c.id == customerId) with
      | none => .error (.graphql .NOT_FOUND)
      | some _ =>
          .ok { customerId := customerId
                totalSpent := 0
                averageOrderValue := 0
                lastOrderDate := none }

/-- Resolver `getCustomerSpending` (lines 43-110).  The initial guard rejects a
missing/empty `customerId` before the `try`.  The `catch` block (lines
98-109) maps a Mongoose `CastError` to BAD_USER_INPUT and EVERY other error
thrown inside the `try` — including the NOT_FOUND `GraphQLError` thrown at
line 86 — to INTERNAL_SERVER_ERROR. -/
def getCustomerSpending (customerId : String) (ds : Dataset) :
    Except ErrCode CustomerSpending :=
  if customerId = "" then .error .BAD_USER_INPUT
  else
    match getCustomerSpendingTry customerId ds with
    | .ok r => .ok r
    | .error .castError => .error .BAD_USER_INPUT
    | .error _ => .error .INTERNAL_SERVER_ERROR

/-! ### Query 2: getTopSellingProducts (resolvers.js lines 113-159) -/

/-- Result shape of `getTopSellingProducts`. -/
structure TopProduct where
  productId : String
  name : String
  totalSold : Int
deriving DecidableEq, Repr

/-- Stage `$unwind: '$products'` over the whole orders collection — no status
filter — producing every line item of every order. -/
def allOrderItems (orders : List Order) : List OrderItem :=
  orders.flatMap Order.products

/-- The per-group `$sum: '$products.quantity'` of the `$group` stage: total
quantity sold of one product id across all orders. -/
def totalSoldFor (orders : List Order) (pid : String) : Int :=
  (((allOrderItems orders).filter (fun it => it.productId == pid)).map
    OrderItem.quantity).sum

/-- Stage `$group` by `products.productId`: one row `(productId, totalSold)` per
distinct product id occurring in any line item. -/
def soldGroups (orders : List Order) : List (String × Int) :=
  ((allOrderItems orders).map OrderItem.productId).dedup.map
    (fun pid => (pid, totalSoldFor orders pid))

/-- Stage `$sort: totalSold descending`: order by summed quantity (ties broken by summed quantity (ties broken
arbitrarily; modelled with insertion sort). -/
def sortGroupsDesc (gs : List (String × Int)) : List (String × Int) :=
  gs.insertionSort (fun a b => b.2 ≤ a.2)

/-- Resolver `getTopSellingProducts` (lines 113-159): reject a missing or
non-positive `limit` before touching the store; then unwind/group/sort,
`$limit`, and `$lookup` + `$unwind: '$productInfo'` into the products
collection — which silently drops any group whose product id has no product
document — projecting `{productId, name, totalSold}`. -/
def getTopSellingProducts (limit : Option Int) (ds : Dataset) :
    Except ErrCode (List TopProduct) :=
  match limit with
  | none => .error .BAD_USER_INPUT
  | some l =>
    if l ≤ 0 then .error .BAD_USER_INPUT
    else
      .ok (((sortGroupsDesc (soldGroups ds.orders)).take l.toNat).filterMap
        (fun g => (ds.products.find? (fun p => p.id == g.1)).map
          (fun p => { productId := g.1, name := p.name, totalSold := g.2 })))

/-! ### Query 3: getSalesAnalytics (resolvers.js lines 162-273) -/

/-- One entry of the category breakdown. -/
structure CategoryRevenue where
  category : String
  revenue : ℚ
deriving DecidableEq, Repr

/-- Result shape of `getSalesAnalytics`. -/
structure SalesAnalytics where
  totalRevenue : ℚ
  completedOrders : Nat
  categoryBreakdown : List CategoryRevenue
deriving DecidableEq, Repr

/-- The shared `$match` stage (lines 179-187): status `completed` and
`orderDate` in the half-open window `[start, end)`. -/
def analyticsMatch (startT endT : Int) (orders : List Order) : List Order :=
  orders.filter (fun o =>
    decide (o.status = OrderStatus.completed ∧
            startT ≤ o.orderDate ∧ o.orderDate < endT))

/-- The overall pipeline (lines 190-206): `$group` with `_id: null` summing
`totalAmount` and counting; Mongo produces no row at all when no document
matched. -/
def overallAggregate (matched : List Order) : Option (ℚ × Nat) :=
  if matched.isEmpty then none
  else some ((matched.map Order.totalAmount).sum, matched.length)

/-- Stages `$unwind: '$products'` + the revenue `$project` of the category pipeline
(lines 211-218): for each line item of each matched order,
`(productId, itemRevenue = quantity * priceAtPurchase)`. -/
def unwoundItems (matched : List Order) : List (String × ℚ) :=
  matched.flatMap (fun o =>
    o.products.map (fun it => (it.productId, (it.quantity : ℚ) * it.priceAtPurchase)))

/-- Stages `$lookup` + `$unwind: '$productInfo'` (lines 220-228): join each item to
its product's category, silently dropping any item whose `productId` has no
product document. -/
def itemsWithCategory (products : List Product) (items : List (String × ℚ)) :
    List (String × ℚ) :=
  items.filterMap (fun x =>
    (products.find? (fun p => p.id == x.1)).map (fun p => (p.category, x.2)))

/-- Stages `$group` by category summing `itemRevenue`, `$round: ['$revenue', 2]`,
then `$sort: { revenue: -1 }` (lines 229-244). -/
def categoryAggregate (products : List Product) (items : List (String × ℚ)) :
    List CategoryRevenue :=
  let withCat := itemsWithCategory products items
  ((withCat.map Prod.fst).dedup.map (fun c =>
      { category := c
        revenue := mongoRound2
          (((withCat.filter (fun x => x.1 == c)).map Prod.snd).sum) }))
    |>.insertionSort (fun a b => b.revenue ≤ a.revenue)

/-- Response assembly (lines 253-260): `totalRevenue` is the overall sum
passed through `toFixed(2)` (0 when nothing matched), `completedOrders` the
match count, and each category revenue is passed through `toFixed(2)`. -/
def analyticsOf (products : List Product) (matched : List Order) :
    SalesAnalytics :=
  let breakdown := (categoryAggregate products (unwoundItems matched)).map
      (fun c => { c with revenue := toFixed2 c.revenue })
  match overallAggregate matched with
  | some (rev, cnt) =>
      { totalRevenue := toFixed2 rev
        completedOrders := cnt
        categoryBreakdown := breakdown }
  | none =>
      { totalRevenue := 0
        completedOrders := 0
        categoryBreakdown := breakdown }

/-- Resolver `getSalesAnalytics` (lines 162-273).  The dates are modelled post-parse:
`none` stands for a `NaN` timestamp (`isNaN(start.getTime())`).  Validation
— BAD_USER_INPUT for an unparsable date or for `start >= end` — happens
before either aggregation runs; the `catch` (lines 264-272) re-throws
`GraphQLError`s, so these validation errors reach the caller unchanged. -/
def getSalesAnalytics (startDate endDate : Option Int) (ds : Dataset) :
    Except ErrCode SalesAnalytics :=
  match startDate, endDate with
  | some s, some e =>
      if s ≥ e then .error .BAD_USER_INPUT
      else .ok (analyticsOf ds.products (analyticsMatch s e ds.orders))
  | _, _ => .error .BAD_USER_INPUT

/-! ### Point lookups (resolvers.js lines 275-313) -/

/-- The outcome of a Mongoose `findById` call as the resolver observes it:
a document, a `null` result, a thrown `CastError`, or some other store
failure. -/
inductive FindOutcome (α : Type) where
  | found (a : α)
  | nullDoc
  | castErr
  | storeErr
deriving DecidableEq, Repr

/-- Body of the `try` block of each point lookup (e.g. lines 277-279): a
`null` document triggers `throw GraphQLError NOT_FOUND` — inside the `try`. -/
def lookupTry {α : Type} (r : FindOutcome α) : Except JsError α :=
  match r with
  | .found a => .ok a
  | .nullDoc => .error (.graphql .NOT_FOUND)
  | .castErr => .error .castError
  | .storeErr => .error .storeError

/-- The `catch` block of each point lookup (e.g. lines 280-286): a
`CastError` becomes BAD_USER_INPUT; every other thrown error — including the
NOT_FOUND `GraphQLError` thrown inside the same `try` — is replaced by a
codeless `GraphQLError` (GENERIC). -/
def lookupCatch (e : JsError) : ErrCode :=
  match e with
  | .castError => .BAD_USER_INPUT
  | _ => .GENERIC

/-- Resolver `getCustomer` (lines 275-287). -/
def getCustomer (r : FindOutcome Customer) : Except ErrCode Customer :=
  match lookupTry r with
  | .ok c => .ok c
  | .error e => .error (lookupCatch e)

/-- Resolver `getProduct` (lines 288-300). -/
def getProduct (r : FindOutcome Product) : Except ErrCode Product :=
  match lookupTry r with
  | .ok p => .ok p
  | .error e => .error (lookupCatch e)

/-- Resolver `getOrder` (lines 301-313). -/
def getOrder (r : FindOutcome Order) : Except ErrCode Order :=
  match lookupTry r with
  | .ok o => .ok o
  | .error e => .error (lookupCatch e)

/-! ### Sample datasets used to instantiate the theorems -/

/-- Dataset with no customers, no products and no orders. -/
def emptyDataset : Dataset := { customers := [], products := [], orders := [] }

/-- Customer c1 with two completed orders (100 at day 5, 50 at day 10), as
in the worked example of the specification. -/
def spendSampleDS : Dataset :=
  { customers := [{ id := "c1", name := "Ann", email := "ann@shop.test" }]
    products := []
    orders :=
      [ { id := "o1", customerId := "c1", products := [], totalAmount := 100,
          orderDate := 5, status := .completed },
        { id := "o2", customerId := "c1", products := [], totalAmount := 50,
          orderDate := 10, status := .completed } ] }

/-- Expected spending summary for `spendSampleDS`. -/
def spendSampleResult : CustomerSpending :=
  { customerId := "c1", totalSpent := 150, averageOrderValue := 75,
    lastOrderDate := some 10 }

/-- Customer c2 exists but owns no order. -/
def zeroOrdersDS : Dataset :=
  { customers := [{ id := "c2", name := "Bo", email := "bo@shop.test" }]
    products := []
    orders :=
      [ { id := "o9", customerId := "other", products := [], totalAmount := 7,
          orderDate := 1, status := .pending } ] }

/-- Two orders selling product p1 (quantities 3 and 5, one of them pending)
and one order line for p2 (quantity 1): the top seller is p1 with 8. -/
def topSampleDS : Dataset :=
  { customers := []
    products :=
      [ { id := "p1", name := "Widget", category := "tools", price := 5,
          stock := 10 },
        { id := "p2", name := "Gadget", category := "tools", price := 3,
          stock := 10 } ]
    orders :=
      [ { id := "t1", customerId := "c1",
          products := [ { productId := "p1", quantity := 3, priceAtPurchase := 5 } ],
          totalAmount := 15, orderDate := 1, status := .completed },
        { id := "t2", customerId := "c1",
          products := [ { productId := "p1", quantity := 5, priceAtPurchase := 5 },
                        { productId := "p2", quantity := 1, priceAtPurchase := 3 } ],
          totalAmount := 28, orderDate := 2, status := .pending } ] }

/-- A completed order with a line item referencing product id p-ghost, for
which no product document exists. -/
def ghostRefDS : Dataset :=
  { customers := []
    products :=
      [ { id := "p1", name := "Widget", category := "tools", price := 5,
          stock := 3 } ]
    orders :=
      [ { id := "g1", customerId := "c1",
          products := [ { productId := "p-ghost", quantity := 2, priceAtPurchase := 4 },
                        { productId := "p1", quantity := 1, priceAtPurchase := 5 } ],
          totalAmount := 13, orderDate := 1, status := .completed } ] }

/-- A completed order dated exactly at a window start. -/
def windowSampleOrder : Order :=
  { id := "w1", customerId := "c1", products := [], totalAmount := 20,
    orderDate := 0, status := .completed }

/-- Dataset holding only `windowSampleOrder`. -/
def windowSampleDS : Dataset :=
  { customers := [], products := [], orders := [windowSampleOrder] }

/-! ### Order instances for the descending sorts -/

instance : IsTotal (String × Int) (fun a b => b.2 ≤ a.2) :=
  ⟨fun a b => le_total b.2 a.2⟩

instance : IsTrans (String × Int) (fun a b => b.2 ≤ a.2) :=
  ⟨fun _ _ _ hab hbc => le_trans hbc hab⟩

instance : IsTotal CategoryRevenue (fun a b => b.revenue ≤ a.revenue) :=
  ⟨fun a b => le_total b.revenue a.revenue⟩

instance : IsTrans CategoryRevenue (fun a b => b.revenue ≤ a.revenue) :=
  ⟨fun _ _ _ hab hbc => le_trans hbc hab⟩

/-! ### Branch characterizations of getCustomerSpending -/

/-- When at least one order matches, `getCustomerSpending` returns the
rounded aggregate and never consults the customer collection. -/
theorem getCustomerSpending_pos (cid : String) (ds : Dataset)
    (h1 : cid ≠ "") (h2 : ds.orders.filter (fun o => o.customerId == cid) ≠ []) :
    getCustomerSpending cid ds = .ok
      { customerId := cid
        totalSpent :=
          toFixed2 (((ds.orders.filter (fun o => o.customerId == cid)).map
            Order.totalAmount).sum)
        averageOrderValue :=
          toFixed2 ((((ds.orders.filter (fun o => o.customerId == cid)).map
              Order.totalAmount).sum) /
            (((ds.orders.filter (fun o => o.customerId == cid)).length : ℚ)))
        lastOrderDate :=
          ((ds.orders.filter (fun o => o.customerId == cid)).map
            Order.orderDate).max? } := by
  have h2' : (ds.orders.filter (fun o => o.customerId == cid)).isEmpty = false := by
    simp [List.isEmpty_iff, h2]
  have hlen : (ds.orders.filter (fun o => o.customerId == cid)).length ≠ 0 := by
    simpa [List.length_eq_zero] using h2
  simp [getCustomerSpending, getCustomerSpendingTry, spendingAggregate, h1, h2', hlen]

/-- When no order matches but the customer record exists,
`getCustomerSpending` returns the zero-valued summary. -/
theorem getCustomerSpending_zeroOrders (cid : String) (ds : Dataset) (c : Customer)
    (h1 : cid ≠ "") (h2 : ds.orders.filter (fun o => o.customerId == cid) = [])
    (h3 : ds.customers.find? (fun c => c.id == cid) = some c) :
    getCustomerSpending cid ds = .ok
      { customerId := cid, totalSpent := 0, averageOrderValue := 0,
        lastOrderDate := none } := by
  simp [getCustomerSpending, getCustomerSpendingTry, spendingAggregate, h1, h2, h3]

/-- When no order matches and no customer record exists, the NOT_FOUND error
thrown inside the `try` is swallowed by the `catch` and surfaces as
INTERNAL_SERVER_ERROR. -/
theorem getCustomerSpending_noCustomer (cid : String) (ds : Dataset)
    (h1 : cid ≠ "") (h2 : ds.orders.filter (fun o => o.customerId == cid) = [])
    (h3 : ds.customers.find? (fun c => c.id == cid) = none) :
    getCustomerSpending cid ds = .error .INTERNAL_SERVER_ERROR := by
  simp [getCustomerSpending, getCustomerSpendingTry, spendingAggregate, h1, h2, h3]

/-! ### Claim C1 -/

/-- C1 (code-bug evaluation): for a customerId matching no order and no
customer record, `getCustomerSpending` does NOT fail with NOT_FOUND: the
NOT_FOUND `GraphQLError` thrown at resolvers.js line 86 is caught by the
same function's `catch` (line 98), fails the `CastError` test there, and is
re-mapped to INTERNAL_SERVER_ERROR (line 106). -/
theorem customerSpending_missingCustomer_internal :
    getCustomerSpending "ghost" emptyDataset = .error .INTERNAL_SERVER_ERROR ∧
    getCustomerSpending "ghost" emptyDataset ≠ .error .NOT_FOUND := by
  refine ⟨getCustomerSpending_noCustomer "ghost" emptyDataset (by decide) rfl rfl, ?_⟩
  rw [getCustomerSpending_noCustomer "ghost" emptyDataset (by decide) rfl rfl]
  simp

/-! ### Claim C5 -/

/-- C5: in every non-error `getCustomerSpending` result, `totalSpent` and
`averageOrderValue` are an integer number of hundredths (rounded to exactly
2 decimal places); when at least one order matches, `averageOrderValue` is
the rounded quotient of the total spent by the order count; when no order
matches, the guarded division is skipped and `averageOrderValue` is 0. -/
theorem customerSpending_rounded_fields (cid : String) (ds : Dataset)
    (s : CustomerSpending) (h : getCustomerSpending cid ds = .ok s) :
    (∃ n : ℤ, s.totalSpent = (n : ℚ) / 100) ∧
    (∃ n : ℤ, s.averageOrderValue = (n : ℚ) / 100) ∧
    (ds.orders.filter (fun o => o.customerId == cid) ≠ [] →
      s.averageOrderValue =
        toFixed2 ((((ds.orders.filter (fun o => o.customerId == cid)).map
            Order.totalAmount).sum) /
          (((ds.orders.filter (fun o => o.customerId == cid)).length : ℚ)))) ∧
    (ds.orders.filter (fun o => o.customerId == cid) = [] →
      s.averageOrderValue = 0) := by
  by_cases h1 : cid = ""
  · simp [getCustomerSpending, h1] at h
  by_cases h2 : ds.orders.filter (fun o => o.customerId == cid) = []
  · cases h3 : ds.customers.find? (fun c => c.id == cid) with
    | none =>
        rw [getCustomerSpending_noCustomer cid ds h1 h2 h3] at h
        exact absurd h (by simp)
    | some c =>
        rw [getCustomerSpending_zeroOrders cid ds c h1 h2 h3] at h
        have hs := Except.ok.inj h
        subst hs
        refine ⟨⟨0, by norm_num⟩, ⟨0, by norm_num⟩, fun hne => absurd h2 hne,
          fun _ => rfl⟩
  · rw [getCustomerSpending_pos cid ds h1 h2] at h
    have hs := Except.ok.inj h
    subst hs
    exact ⟨⟨_, rfl⟩, ⟨_, rfl⟩, fun _ => rfl, fun heq => absurd heq h2⟩

/-- Witness for C5 at the worked example: two completed orders of 100 and 50
give totalSpent 150.00 and averageOrderValue 75.00. -/
theorem customerSpending_rounded_fields_witness :
    (∃ n : ℤ, spendSampleResult.totalSpent = (n : ℚ) / 100) ∧
    (∃ n : ℤ, spendSampleResult.averageOrderValue = (n : ℚ) / 100) ∧
    (spendSampleDS.orders.filter (fun o => o.customerId == "c1") ≠ [] →
      spendSampleResult.averageOrderValue =
        toFixed2 ((((spendSampleDS.orders.filter (fun o => o.customerId == "c1")).map
            Order.totalAmount).sum) /
          (((spendSampleDS.orders.filter (fun o => o.customerId == "c1")).length : ℚ)))) ∧
    (spendSampleDS.orders.filter (fun o => o.customerId == "c1") = [] →
      spendSampleResult.averageOrderValue = 0) :=
  customerSpending_rounded_fields "c1" spendSampleDS spendSampleResult (by
    rw [getCustomerSpending_pos "c1" spendSampleDS (by decide) (by decide)]
    norm_num [spendSampleDS, spendSampleResult, toFixed2, jsRoundAway,
      List.filter, List.max?, List.foldl])

/-! ### Claim C6 -/

/-- C6: for a customerId that matches no order but does match an existing
customer record, `getCustomerSpending` succeeds with the zero-valued
summary `{customerId, totalSpent: 0, averageOrderValue: 0,
lastOrderDate: null}`. -/
theorem customerSpending_zero_summary (cid : String) (ds : Dataset) (c : Customer)
    (h1 : cid ≠ "") (h2 : ds.orders.filter (fun o => o.customerId == cid) = [])
    (h3 : ds.customers.find? (fun c => c.id == cid) = some c) :
    getCustomerSpending cid ds = .ok
      { customerId := cid, totalSpent := 0, averageOrderValue := 0,
        lastOrderDate := none } :=
  getCustomerSpending_zeroOrders cid ds c h1 h2 h3

/-- Witness for C6: customer c2 exists and has no orders. -/
theorem customerSpending_zero_summary_witness :
    getCustomerSpending "c2" zeroOrdersDS = .ok
      { customerId := "c2", totalSpent := 0, averageOrderValue := 0,
        lastOrderDate := none } :=
  customerSpending_zero_summary "c2" zeroOrdersDS
    { id := "c2", name := "Bo", email := "bo@shop.test" }
    (by decide) (by decide) (by decide)

/-! ### Claim C10 -/

/-- C10: when at least one order matches a non-empty customerId,
`getCustomerSpending` returns the aggregated summary without consulting the
customer collection at all: the result is identical on the same dataset
with every customer record removed. -/
theorem customerSpending_skips_customer_check (cid : String) (ds : Dataset)
    (h1 : cid ≠ "") (h2 : ds.orders.filter (fun o => o.customerId == cid) ≠ []) :
    (∃ s, getCustomerSpending cid ds = .ok s) ∧
    getCustomerSpending cid ds =
      getCustomerSpending cid { ds with customers := [] } := by
  refine ⟨⟨_, getCustomerSpending_pos cid ds h1 h2⟩, ?_⟩
  rw [getCustomerSpending_pos cid ds h1 h2,
      getCustomerSpending_pos cid { ds with customers := [] } h1 h2]

/-- Witness for C10: c1 has orders in `spendSampleDS`; the summary is
returned even with the customer collection emptied. -/
theorem customerSpending_skips_customer_check_witness :
    (∃ s, getCustomerSpending "c1" spendSampleDS = .ok s) ∧
    getCustomerSpending "c1" spendSampleDS =
      getCustomerSpending "c1" { spendSampleDS with customers := [] } :=
  customerSpending_skips_customer_check "c1" spendSampleDS (by decide) (by decide)

/-! ### Claim C2 -/

/-- C2 (code-bug evaluation): in each point lookup the NOT_FOUND
`GraphQLError` thrown for a null document inside the `try` is caught by the
lookup's own `catch`, fails the `CastError` test, and is replaced by a
codeless `GraphQLError` — so the absent-entity case reaches the caller as a
generic error, not as NOT_FOUND.  Only the malformed-identifier half of the
claim (`CastError` → BAD_USER_INPUT) behaves as specified. -/
theorem pointLookups_missing_entity_generic :
    getCustomer .nullDoc = .error .GENERIC ∧
    getProduct .nullDoc = .error .GENERIC ∧
    getOrder .nullDoc = .error .GENERIC ∧
    getCustomer .nullDoc ≠ .error .NOT_FOUND ∧
    getCustomer .castErr = .error .BAD_USER_INPUT ∧
    getProduct .castErr = .error .BAD_USER_INPUT ∧
    getOrder .castErr = .error .BAD_USER_INPUT := by
  refine ⟨rfl, rfl, rfl, ?_, rfl, rfl, rfl⟩
  simp [getCustomer, lookupTry, lookupCatch]

/-! ### Claim C7 -/

/-- C7: `getSalesAnalytics` fails with BAD_USER_INPUT exactly when one of
the dates fails to parse (a NaN timestamp, modelled `none`) or the parsed
start is not strictly earlier than the parsed end; the condition does not
mention the dataset, so the outcome of validation is independent of the
store; and BAD_USER_INPUT is the only failure the query can produce. -/
theorem salesAnalytics_badInput_iff (sd ed : Option Int) (ds : Dataset) :
    (getSalesAnalytics sd ed ds = .error .BAD_USER_INPUT ↔
      sd = none ∨ ed = none ∨
        ∃ s e : Int, sd = some s ∧ ed = some e ∧ e ≤ s) ∧
    ∀ c : ErrCode, getSalesAnalytics sd ed ds = .error c →
      c = .BAD_USER_INPUT := by
  cases sd with
  | none => simp [getSalesAnalytics]
  | some s =>
    cases ed with
    | none => simp [getSalesAnalytics]
    | some e =>
      by_cases hse : s ≥ e
      · simp [getSalesAnalytics, hse, ge_iff_le]
      · simp [getSalesAnalytics, hse, ge_iff_le]

/-- Witness for C7: start 10 is not before end 5, so the query fails with
BAD_USER_INPUT, on the empty dataset as on any other. -/
theorem salesAnalytics_badInput_iff_witness :
    (getSalesAnalytics (some 10) (some 5) emptyDataset = .error .BAD_USER_INPUT ↔
      (some 10 : Option Int) = none ∨ (some 5 : Option Int) = none ∨
        ∃ s e : Int, (some 10 : Option Int) = some s ∧
          (some 5 : Option Int) = some e ∧ e ≤ s) ∧
    ∀ c : ErrCode, getSalesAnalytics (some 10) (some 5) emptyDataset = .error c →
      c = .BAD_USER_INPUT :=
  salesAnalytics_badInput_iff (some 10) (some 5) emptyDataset

/-! ### Claim C8 -/

/-- C8: a missing or non-positive `limit` makes `getTopSellingProducts`
fail with BAD_USER_INPUT, uniformly in the dataset — the guard runs before
any store access. -/
theorem topSellingProducts_badLimit (l : Option Int) (ds : Dataset)
    (h : l = none ∨ ∃ v : Int, l = some v ∧ v ≤ 0) :
    getTopSellingProducts l ds = .error .BAD_USER_INPUT := by
  rcases h with h | ⟨v, rfl, hv⟩
  · subst h; rfl
  · simp [getTopSellingProducts, hv]

/-- Witness for C8: limit 0 is rejected. -/
theorem topSellingProducts_badLimit_witness :
    getTopSellingProducts (some 0) emptyDataset = .error .BAD_USER_INPUT :=
  topSellingProducts_badLimit (some 0) emptyDataset
    (Or.inr ⟨0, rfl, le_refl 0⟩)

/-! ### Claim C3 -/

/-- C3: for parsed timestamps start < end, an order is matched by
`getSalesAnalytics` — and hence counted toward totalRevenue,
completedOrders and the category breakdown, all of which are assembled from
exactly the matched orders — if and only if its status is `completed` and
start ≤ orderDate < end.  In particular orderDate = start is included,
orderDate = end is excluded, and pending or canceled orders are excluded
regardless of date. -/
theorem salesAnalytics_window (s e : Int) (hse : s < e) (ds : Dataset) (o : Order) :
    (o ∈ analyticsMatch s e ds.orders ↔
      o ∈ ds.orders ∧ o.status = OrderStatus.completed ∧
        s ≤ o.orderDate ∧ o.orderDate < e) ∧
    getSalesAnalytics (some s) (some e) ds =
      .ok (analyticsOf ds.products (analyticsMatch s e ds.orders)) := by
  constructor
  · simp [analyticsMatch, List.mem_filter, decide_eq_true_eq, and_assoc]
  · simp [getSalesAnalytics, ge_iff_le, not_le.mpr hse]

/-- Witness for C3: a completed order dated exactly at the window start is
matched, and the analytics succeed. -/
theorem salesAnalytics_window_witness :
    (windowSampleOrder ∈ analyticsMatch 0 10 windowSampleDS.orders ↔
      windowSampleOrder ∈ windowSampleDS.orders ∧
        windowSampleOrder.status = OrderStatus.completed ∧
        0 ≤ windowSampleOrder.orderDate ∧ windowSampleOrder.orderDate < 10) ∧
    getSalesAnalytics (some 0) (some 10) windowSampleDS =
      .ok (analyticsOf windowSampleDS.products
        (analyticsMatch 0 10 windowSampleDS.orders)) :=
  salesAnalytics_window 0 10 (by decide) windowSampleDS windowSampleOrder

/-! ### Sortedness helpers for the two descending sorts -/

/-- The totalSold sort produces a list that is pairwise non-increasing in
its second component. -/
theorem sortGroupsDesc_sorted (gs : List (String × Int)) :
    (sortGroupsDesc gs).Pairwise (fun a b => b.2 ≤ a.2) :=
  List.sorted_insertionSort _ gs

/-- Every group row carries the total quantity sold of its product id. -/
theorem mem_soldGroups {orders : List Order} {g : String × Int}
    (h : g ∈ soldGroups orders) : g.2 = totalSoldFor orders g.1 := by
  obtain ⟨pid, _, rfl⟩ := List.mem_map.mp h
  rfl

/-! ### Claim C4 -/

/-- C4: for every positive limit, `getTopSellingProducts` succeeds with at
most `limit` entries, pairwise non-increasing in totalSold; each entry's
totalSold is the sum of the quantities of that product id over the line
items of ALL orders (`totalSoldFor` applies no status filter), and each
entry carries the name of the product document found by joining on the
product id. -/
theorem topSellingProducts_spec (l : Int) (hl : 0 < l) (ds : Dataset) :
    ∃ res : List TopProduct,
      getTopSellingProducts (some l) ds = .ok res ∧
      res.length ≤ l.toNat ∧
      List.Pairwise (fun a b => b.totalSold ≤ a.totalSold) res ∧
      ∀ t ∈ res, t.totalSold = totalSoldFor ds.orders t.productId ∧
        ∃ p : Product,
          ds.products.find? (fun q => q.id == t.productId) = some p ∧
          t.name = p.name := by
  have hneg : ¬ l ≤ 0 := not_le.mpr hl
  refine ⟨((sortGroupsDesc (soldGroups ds.orders)).take l.toNat).filterMap
      (fun g => (ds.products.find? (fun p => p.id == g.1)).map
        (fun p => { productId := g.1, name := p.name, totalSold := g.2 })),
    by simp [getTopSellingProducts, hneg], ?_, ?_, ?_⟩
  · exact le_trans (List.length_filterMap_le _ _) (List.length_take_le _ _)
  · have hbase : ((sortGroupsDesc (soldGroups ds.orders)).take l.toNat).Pairwise
        (fun a b => b.2 ≤ a.2) :=
      List.Pairwise.sublist (List.take_sublist _ _) (sortGroupsDesc_sorted _)
    refine List.pairwise_filterMap.mpr (List.Pairwise.imp ?_ hbase)
    intro a b hab x hx y hy
    rw [Option.mem_def] at hx hy
    obtain ⟨pa, _, rfl⟩ := Option.map_eq_some'.mp hx
    obtain ⟨pb, _, rfl⟩ := Option.map_eq_some'.mp hy
    exact hab
  · intro t ht
    obtain ⟨g, hg, hfg⟩ := List.mem_filterMap.mp ht
    obtain ⟨p, hp, rfl⟩ := Option.map_eq_some'.mp hfg
    have hg2 : g ∈ soldGroups ds.orders := by
      have hmem := List.take_subset _ _ hg
      simpa [sortGroupsDesc] using hmem
    exact ⟨mem_soldGroups hg2, p, hp, rfl⟩

/-- Witness for C4: p1 sold in quantities 3 and 5 (one order pending), p2
sold 1; limit 1. -/
theorem topSellingProducts_spec_witness :
    ∃ res : List TopProduct,
      getTopSellingProducts (some 1) topSampleDS = .ok res ∧
      res.length ≤ (1 : Int).toNat ∧
      List.Pairwise (fun a b => b.totalSold ≤ a.totalSold) res ∧
      ∀ t ∈ res, t.totalSold = totalSoldFor topSampleDS.orders t.productId ∧
        ∃ p : Product,
          topSampleDS.products.find? (fun q => q.id == t.productId) = some p ∧
          t.name = p.name :=
  topSellingProducts_spec 1 (by decide) topSampleDS

/-! ### Dropping items whose product id has no product document -/

/-- When no product document matches `pid`, pre-filtering the unwound items
on `productId ≠ pid` does not change the category join: the join drops
those items anyway. -/
theorem itemsWithCategory_filter_missing (products : List Product) (pid : String)
    (h : products.find? (fun p => p.id == pid) = none)
    (items : List (String × ℚ)) :
    itemsWithCategory products (items.filter (fun x => x.1 != pid)) =
      itemsWithCategory products items := by
  induction items with
  | nil => rfl
  | cons x xs ih =>
    by_cases hx : x.1 = pid
    · simp only [itemsWithCategory, List.filter_cons] at ih ⊢
      simp [hx, h, List.filterMap_cons, ih]
    · have hcond : (x.1 != pid) = true := by simp [hx]
      simp only [itemsWithCategory, List.filter_cons] at ih ⊢
      simp only [hcond, if_true, List.filterMap_cons, ih]

/-- Same invariance lifted to the whole category aggregation. -/
theorem categoryAggregate_filter_missing (products : List Product) (pid : String)
    (h : products.find? (fun p => p.id == pid) = none)
    (items : List (String × ℚ)) :
    categoryAggregate products (items.filter (fun x => x.1 != pid)) =
      categoryAggregate products items := by
  unfold categoryAggregate
  rw [itemsWithCategory_filter_missing products pid h items]

/-- The category breakdown of the assembled response, in both the matched
and the unmatched branch. -/
theorem analyticsOf_breakdown (products : List Product) (matched : List Order) :
    (analyticsOf products matched).categoryBreakdown =
      (categoryAggregate products (unwoundItems matched)).map
        (fun c => { c with revenue := toFixed2 c.revenue }) := by
  unfold analyticsOf
  rcases overallAggregate matched with _ | ⟨rev, cnt⟩ <;> rfl

/-! ### Claim C9 -/

/-- C9: when some line item references a product id with no product
document, neither query errors; the id never appears among the top-selling
entries, and the category breakdown equals the one computed with every such
line item removed beforehand — the unmatched reference contributes nothing. -/
theorem missingProduct_silently_dropped (ds : Dataset) (pid : String)
    (h : ds.products.find? (fun p => p.id == pid) = none) :
    (∀ l : Int, 0 < l → ∃ res : List TopProduct,
        getTopSellingProducts (some l) ds = .ok res ∧
        ∀ t ∈ res, t.productId ≠ pid) ∧
    (∀ s e : Int, s < e →
      getSalesAnalytics (some s) (some e) ds =
        .ok (analyticsOf ds.products (analyticsMatch s e ds.orders)) ∧
      (analyticsOf ds.products (analyticsMatch s e ds.orders)).categoryBreakdown =
        (categoryAggregate ds.products
          ((unwoundItems (analyticsMatch s e ds.orders)).filter
            (fun x => x.1 != pid))).map
          (fun c => { c with revenue := toFixed2 c.revenue })) := by
  constructor
  · intro l hl
    have hneg : ¬ l ≤ 0 := not_le.mpr hl
    refine ⟨((sortGroupsDesc (soldGroups ds.orders)).take l.toNat).filterMap
        (fun g => (ds.products.find? (fun p => p.id == g.1)).map
          (fun p => { productId := g.1, name := p.name, totalSold := g.2 })),
      by simp [getTopSellingProducts, hneg], ?_⟩
    intro t ht
    obtain ⟨g, _, hfg⟩ := List.mem_filterMap.mp ht
    obtain ⟨p, hp, rfl⟩ := Option.map_eq_some'.mp hfg
    intro hcontra
    rw [show ({ productId := g.1, name := p.name, totalSold := g.2 } :
          TopProduct).productId = g.1 from rfl] at hcontra
    rw [hcontra, h] at hp
    exact Option.noConfusion hp
  · intro s e hse
    refine ⟨by simp [getSalesAnalytics, ge_iff_le, not_le.mpr hse], ?_⟩
    rw [analyticsOf_breakdown, categoryAggregate_filter_missing ds.products pid h]

/-- Witness for C9 on `ghostRefDS`, whose only order references the
nonexistent product id p-ghost. -/
theorem missingProduct_silently_dropped_witness :
    (∀ l : Int, 0 < l → ∃ res : List TopProduct,
        getTopSellingProducts (some l) ghostRefDS = .ok res ∧
        ∀ t ∈ res, t.productId ≠ "p-ghost") ∧
    (∀ s e : Int, s < e →
      getSalesAnalytics (some s) (some e) ghostRefDS =
        .ok (analyticsOf ghostRefDS.products
          (analyticsMatch s e ghostRefDS.orders)) ∧
      (analyticsOf ghostRefDS.products
          (analyticsMatch s e ghostRefDS.orders)).categoryBreakdown =
        (categoryAggregate ghostRefDS.products
          ((unwoundItems (analyticsMatch s e ghostRefDS.orders)).filter
            (fun x => x.1 != "p-ghost"))).map
          (fun c => { c with revenue := toFixed2 c.revenue })) :=
  missingProduct_silently_dropped ghostRefDS "p-ghost" (by decide)

/-! ### Concrete evaluations of the pipeline -/

/-- Concrete run of the worked example: with limit 1 the single returned
entry is p1 with 8 units sold, counting quantities from a completed order
and from a pending order alike. -/
theorem topSellingProducts_example :
    getTopSellingProducts (some 1) topSampleDS =
      .ok [{ productId := "p1", name := "Widget", totalSold := 8 }] := rfl

/-- Concrete run on `ghostRefDS`: the p-ghost group outsells p1 (2 units to
1) and survives the `$limit`, yet the join drops it, so only p1 is
returned. -/
theorem topSellingProducts_ghost_example :
    getTopSellingProducts (some 5) ghostRefDS =
      .ok [{ productId := "p1", name := "Widget", totalSold := 1 }] := rfl

end SalesAnalysis
